import Mathlib

/-
Verification development for the Azure-OpenAI-demos repository.

Two notebooks are embedded:
  * the gpt-4o-mini-tts notebook (src/unnamed/part_000): a speech-synthesis
    call `gpt4ominitts` wired to a gradio web form;
  * the structured-outputs notebook: a chat-completion request carrying a
    pydantic function tool, whose first tool call's argument string is parsed
    with json.loads.

Effects (environment reads, the single network request, the temp-file write,
the trailing sleep) are modelled as an explicit event trace; the remote
service is an oracle parameter; fallible steps return Except/Option.
-/

namespace AzureOpenAIDemos

/-! ## Speech-synthesis notebook (src/unnamed/part_000) -/

/-- Module-level constant set in the startup cell of the TTS notebook. -/
def api_version : String := "2025-03-01-preview"

/-- Module-level constant set in the startup cell of the TTS notebook. -/
def model_name : String := "gpt-4o-mini-tts"

/-- The list of supported voices, exactly as in the notebook. -/
def VOICES : List String :=
  ["alloy", "ash", "ballad", "coral", "echo", "fable", "onyx", "nova", "sage",
   "shimmer", "verse"]

/-- The process environment as seen through os.getenv: the two variables the
TTS notebook reads, each possibly absent. -/
structure Env where
  endpointVar : Option String
  keyVar : Option String
  deriving DecidableEq

/-- Observable effects of one run of the synthesis function. -/
inductive Event where
  | getenv (varName : String)
  | networkCall (modelArg voiceArg inputArg instructionsArg formatArg : String)
  | fileWrite (path : String) (content : List Nat)
  | sleepTenths (tenths : Nat)
  deriving DecidableEq

/-- Outcome of one call: a returned file path, an error raised while
constructing the AzureOpenAI client (missing endpoint or key), or a failure
of the network request itself. -/
inductive SynthResult where
  | ok (path : String)
  | clientConfigError
  | transportError
  deriving DecidableEq

/-- The full observable outcome of one call: the event trace, the result, and
the file system (an association list from path to byte content) afterwards. -/
structure SynthOutcome where
  trace : List Event
  result : SynthResult
  fs : List (String × List Nat)
  deriving DecidableEq

/-- Embedding of the notebook function

    def gpt4ominitts(instructions, text, voice):
        client = AzureOpenAI(azure_endpoint=os.getenv('endpoint'),
                             api_key=os.getenv('key'),
                             api_version=api_version)
        response = client.audio.speech.create(model=model_name, voice=voice,
                                              input=text, instructions=instructions,
                                              response_format="wav")
        with tempfile.NamedTemporaryFile(delete=False, suffix=".wav") as temp_audio:
            temp_audio.write(response.content)
            tempfilename = temp_audio.name
        time.sleep(0.5)
        return tempfilename

The AzureOpenAI constructor raises when the endpoint or the key argument is
None (modelled as clientConfigError); otherwise the request is sent with no
local check of voice or text.  The remote service is the oracle `service`,
answering some bytes on success and none on transport failure; `tempName` is
the fresh name produced by NamedTemporaryFile. -/
def gpt4ominitts (env : Env) (fs : List (String × List Nat))
    (service : String → String → String → Option (List Nat))
    (tempName : String)
    (instructions text voice : String) : SynthOutcome :=
  let clientTrace : List Event := [Event.getenv "endpoint", Event.getenv "key"]
  match env.endpointVar, env.keyVar with
  | none, _ => ⟨clientTrace, SynthResult.clientConfigError, fs⟩
  | some _, none => ⟨clientTrace, SynthResult.clientConfigError, fs⟩
  | some _, some _ =>
      match service voice text instructions with
      | none =>
          ⟨clientTrace ++ [Event.networkCall model_name voice text instructions "wav"],
           SynthResult.transportError, fs⟩
      | some content =>
          ⟨clientTrace ++
             [Event.networkCall model_name voice text instructions "wav",
              Event.fileWrite tempName content, Event.sleepTenths 5],
           SynthResult.ok tempName, (tempName, content) :: fs⟩

/-- Startup of the TTS notebook: load_dotenv("azure.env") and the assignment
of api_version and model_name.  It reads neither the endpoint nor the key
variable and cannot fail, whatever the environment holds; the empty trace
records that no getenv call happens at startup. -/
def ttsStartup (_env : Env) : Option (String × String) × List Event :=
  (some (api_version, model_name), [])

def isNetworkCall : Event → Bool
  | Event.networkCall _ _ _ _ _ => true
  | _ => false

def isGetenv : Event → Bool
  | Event.getenv _ => true
  | _ => false

def isFileWrite : Event → Bool
  | Event.fileWrite _ _ => true
  | _ => false

/-- Number of network requests recorded in a trace. -/
def networkCount (t : List Event) : Nat := (t.filter isNetworkCall).length

/-- Number of os.getenv reads recorded in a trace. -/
def getenvCount (t : List Event) : Nat := (t.filter isGetenv).length

/-- Number of file writes recorded in a trace. -/
def writeCount (t : List Event) : Nat := (t.filter isFileWrite).length

/-! ## Web UI wiring of the TTS notebook -/

/-- A gradio dropdown as configured in the notebook: the list of offered
choices, the preset value, and whether free-form values are accepted
(gr.Dropdown defaults allow_custom_value to False and the notebook does not
override it). -/
structure Dropdown where
  choices : List String
  value : String
  allowCustomValue : Bool
  deriving DecidableEq

/-- voice_picker = gr.Dropdown(VOICES, value="ash", ...). -/
def voice_picker : Dropdown := ⟨VOICES, "ash", false⟩

/-- A value the dropdown widget can submit: one of its choices, or anything
at all when custom values are allowed. -/
def uiSelectable (d : Dropdown) (v : String) : Prop :=
  v ∈ d.choices ∨ d.allowCustomValue = true

instance (d : Dropdown) (v : String) : Decidable (uiSelectable d v) := by
  unfold uiSelectable
  exact inferInstance

/-- play_button.click(fn=gpt4ominitts, inputs=[instructions_box, input_box,
voice_picker], outputs=[output_audio]): the click handler forwards the three
widget values to gpt4ominitts unchanged. -/
def uiGenerateSpeech (env : Env) (fs : List (String × List Nat))
    (service : String → String → String → Option (List Nat))
    (tempName instructionsBox inputBox voiceValue : String) : SynthOutcome :=
  gpt4ominitts env fs service tempName instructionsBox inputBox voiceValue

/-! ## Structured-outputs notebook -/

/-- A role-tagged request message, as appended to the messages list. -/
structure ChatMessage where
  role : String
  content : String
  deriving DecidableEq

/-- The function part of a tool call in the response:
Function(arguments=..., name=...). -/
structure FunctionPayload where
  arguments : String
  name : String
  deriving DecidableEq

/-- ChatCompletionMessageToolCall(id=..., function=..., type='function'). -/
structure ToolCall where
  id : String
  function : FunctionPayload
  deriving DecidableEq

/-- The assistant message of a choice: free-text content (possibly None) and
the tool-call list, which is None when the model answered with free text. -/
structure ChatMessageOut where
  content : Option String
  toolCalls : Option (List ToolCall)
  deriving DecidableEq

/-- One choice of a chat completion. -/
structure Choice where
  message : ChatMessageOut
  deriving DecidableEq

/-- A chat-completion response: its list of choices. -/
structure ChatCompletion where
  choices : List Choice
  deriving DecidableEq

/-- A pydantic model declaration such as GetInformations: a class name and
its field names in declaration order. -/
structure SchemaDecl where
  name : String
  fields : List String
  deriving DecidableEq

/-- The JSON-schema function tool sent on the wire: openai.pydantic_function_tool
marks every declared field required and forbids additional properties. -/
structure Tool where
  name : String
  properties : List String
  required : List String
  additionalProperties : Bool
  deriving DecidableEq

def pydantic_function_tool (s : SchemaDecl) : Tool :=
  ⟨s.name, s.fields, s.fields, false⟩

/-- The model identifier of the structured-outputs notebook. -/
def MODEL : String := "gpt-4o-2024-08-06"

/-- The request built by client.chat.completions.create(model=MODEL,
messages=messages, tools=tools). -/
structure ChatRequest where
  model : String
  messages : List ChatMessage
  tools : List Tool
  deriving DecidableEq

def mkChatRequest (conv : List ChatMessage) (s : SchemaDecl) : ChatRequest :=
  ⟨MODEL, conv, [pydantic_function_tool s]⟩

/-! A parser for the flat JSON objects json.loads receives in this notebook:
an object whose keys and values are strings, as in every recorded payload
(for instance the arguments string of GetInformations).  An escaped character
inside a string stands for itself, which agrees with json.loads on the
escapes that occur here. -/

def parseJStringAux : List Char → List Char → Option (String × List Char)
  | [], _ => none
  | c :: rest, acc =>
    if c = '"' then some (String.mk acc.reverse, rest)
    else if c = '\\' then
      match rest with
      | [] => none
      | d :: rest2 => parseJStringAux rest2 (d :: acc)
    else parseJStringAux rest (c :: acc)

def parseJString (s : List Char) : Option (String × List Char) :=
  match s with
  | '"' :: rest => parseJStringAux rest []
  | _ => none

def parseMembers : Nat → List Char → Option (List (String × String) × List Char)
  | 0, _ => none
  | Nat.succ fuel, s =>
    match parseJString s with
    | none => none
    | some (k, s1) =>
      match s1 with
      | ':' :: s2 =>
        match parseJString s2 with
        | none => none
        | some (v, s3) =>
          match s3 with
          | '\x7d' :: s4 => some ([(k, v)], s4)
          | ',' :: s4 =>
            match parseMembers fuel s4 with
            | none => none
            | some (kvs, s5) => some ((k, v) :: kvs, s5)
          | _ => none
      | _ => none

/-- json.loads restricted to the flat string-valued objects this notebook
receives; none models a raised json.JSONDecodeError. -/
def jsonLoadsFlat (s : String) : Option (List (String × String)) :=
  match s.data with
  | '\x7b' :: '\x7d' :: [] => some []
  | '\x7b' :: rest =>
    match parseMembers rest.length rest with
    | some (kvs, []) => some kvs
    | _ => none
  | _ => none

/-- The Python exceptions the extraction cell can raise. -/
inductive PyError where
  | indexError
  | typeError
  | jsonDecodeError
  deriving DecidableEq

/-- The subexpression response.choices[0].message.tool_calls[0]:
choices[0] on an empty list raises IndexError, tool_calls[0] raises TypeError
when tool_calls is None and IndexError when it is the empty list. -/
def firstToolCall (r : ChatCompletion) : Except PyError ToolCall :=
  match r.choices with
  | [] => Except.error PyError.indexError
  | c :: _ =>
    match c.message.toolCalls with
    | none => Except.error PyError.typeError
    | some [] => Except.error PyError.indexError
    | some (tc :: _) => Except.ok tc

/-- The extraction cell:
results = json.loads(response.choices[0].message.tool_calls[0].function.arguments).
There is no try/except around it: any error is an uncaught exception. -/
def extractResults (r : ChatCompletion) : Except PyError (List (String × String)) :=
  match firstToolCall r with
  | Except.error e => Except.error e
  | Except.ok tc =>
    match jsonLoadsFlat tc.function.arguments with
    | some kvs => Except.ok kvs
    | none => Except.error PyError.jsonDecodeError

/-- The whole flow of the notebook: build the request from the conversation
and the schema, send it to the remote service (an oracle), and run the
extraction cell on the response. -/
def runExtraction (service : ChatRequest → ChatCompletion)
    (conv : List ChatMessage) (s : SchemaDecl) :
    Except PyError (List (String × String)) :=
  extractResults (service (mkChatRequest conv s))

/-- The parsed mapping has every declared field and nothing else: what the
strict JSON schema produced by pydantic_function_tool (all fields required,
additionalProperties false) demands of a conforming payload. -/
def keysMatch (s : SchemaDecl) (kvs : List (String × String)) : Prop :=
  (∀ f ∈ s.fields, f ∈ kvs.map Prod.fst) ∧ ∀ k ∈ kvs.map Prod.fst, k ∈ s.fields

instance (s : SchemaDecl) (kvs : List (String × String)) : Decidable (keysMatch s kvs) := by
  unfold keysMatch
  exact inferInstance

/-! ## Concrete fixtures from the notebooks -/

/-- A well-formed environment. -/
def env0 : Env := ⟨some "https://example.openai.azure.com", some "secret-key"⟩

/-- The environment with both configuration variables absent. -/
def envMissing : Env := ⟨none, none⟩

/-- A synthesis service that always answers the given byte payload. -/
def serviceBytes (bs : List Nat) : String → String → String → Option (List Nat) :=
  fun _ _ _ => some bs

/-- The conversation of Example 1 of the structured-outputs notebook. -/
def convA : List ChatMessage :=
  [⟨"system", "You are an AI helpful assistant."⟩,
   ⟨"user", "Hello, what is the current weather for the capital of France?"⟩]

/-- The schema declaration of Example 1. -/
def GetInformations : SchemaDecl :=
  ⟨"GetInformations", ["weather_location", "country_location", "country_language"]⟩

/-- The recorded arguments string of Example 1. -/
def argumentsA : String :=
  "\x7b\"weather_location\":\"Paris\",\"country_location\":\"France\",\"country_language\":\"French\"\x7d"

/-- The recorded tool call of Example 1. -/
def toolCallA : ToolCall :=
  ⟨"call_GRryPcMz0VNyPxjWOc2lwtyU", ⟨argumentsA, "GetInformations"⟩⟩

/-- The recorded response of Example 1. -/
def responseA : ChatCompletion := ⟨[⟨⟨none, some [toolCallA]⟩⟩]⟩

/-- A service oracle answering the recorded response of Example 1. -/
def serviceA : ChatRequest → ChatCompletion := fun _ => responseA

/-- The parsed mapping of Example 1. -/
def resultsA : List (String × String) :=
  [("weather_location", "Paris"), ("country_location", "France"),
   ("country_language", "French")]

/-- A response whose assistant message is free text with an empty tool-call
list. -/
def freeTextResponse : ChatCompletion :=
  ⟨[⟨⟨some "Paris is the capital of France.", some []⟩⟩]⟩

/-! ## Helper lemmas on gpt4ominitts -/

/-- With endpoint and key present and a successful service answer, the call
unfolds to its full trace, the returned temp-file path, and the file system
extended by the new file. -/
theorem gpt4ominitts_eq_ok (ev kv : String) (fs : List (String × List Nat))
    (service : String → String → String → Option (List Nat))
    (tempName instructions text voice : String) (content : List Nat)
    (hsvc : service voice text instructions = some content) :
    gpt4ominitts ⟨some ev, some kv⟩ fs service tempName instructions text voice =
      ⟨[Event.getenv "endpoint", Event.getenv "key",
        Event.networkCall model_name voice text instructions "wav",
        Event.fileWrite tempName content, Event.sleepTenths 5],
       SynthResult.ok tempName, (tempName, content) :: fs⟩ := by
  simp [gpt4ominitts, hsvc]

/-- With endpoint and key present and a failing service answer, the call
unfolds to the trace ending at the network request, a transport error, and an
unchanged file system. -/
theorem gpt4ominitts_eq_transport (ev kv : String) (fs : List (String × List Nat))
    (service : String → String → String → Option (List Nat))
    (tempName instructions text voice : String)
    (hsvc : service voice text instructions = none) :
    gpt4ominitts ⟨some ev, some kv⟩ fs service tempName instructions text voice =
      ⟨[Event.getenv "endpoint", Event.getenv "key",
        Event.networkCall model_name voice text instructions "wav"],
       SynthResult.transportError, fs⟩ := by
  simp [gpt4ominitts, hsvc]

/-! ## Claims -/

/-- C1 counterexample: the voice "robotic" is outside VOICES, yet the call
issues one network request (not zero) and returns success; no local
validation error occurs before the request. -/
theorem c1_unsupported_voice_counterexample :
    "robotic" ∉ VOICES ∧
    networkCount (gpt4ominitts env0 [] (serviceBytes [1, 2, 3]) "/tmp/out.wav"
      "calm tone" "hello" "robotic").trace = 1 ∧
    (gpt4ominitts env0 [] (serviceBytes [1, 2, 3]) "/tmp/out.wav"
      "calm tone" "hello" "robotic").result = SynthResult.ok "/tmp/out.wav" := by
  exact ⟨by decide, rfl, rfl⟩

/-- C1 amended: gpt4ominitts performs no local validation of the voice
argument.  For every voice outside VOICES, whenever the environment supplies
endpoint and key, the call issues exactly one network request and raises no
local validation error before it. -/
theorem c1_unsupported_voice_sends_request (ev kv : String)
    (fs : List (String × List Nat))
    (service : String → String → String → Option (List Nat))
    (tempName instructions text voice : String)
    (hv : voice ∉ VOICES) :
    networkCount (gpt4ominitts ⟨some ev, some kv⟩ fs service
      tempName instructions text voice).trace = 1 ∧
    (gpt4ominitts ⟨some ev, some kv⟩ fs service
      tempName instructions text voice).result ≠ SynthResult.clientConfigError := by
  cases hsvc : service voice text instructions with
  | none =>
      rw [gpt4ominitts_eq_transport ev kv fs service tempName instructions text voice hsvc]
      exact ⟨rfl, by simp⟩
  | some content =>
      rw [gpt4ominitts_eq_ok ev kv fs service tempName instructions text voice content hsvc]
      exact ⟨rfl, by simp⟩

/-- C1 witness: the amended theorem applied at the concrete voice "robotic". -/
theorem c1_unsupported_voice_sends_request_witness :
    "robotic" ∉ VOICES ∧
    (networkCount (gpt4ominitts ⟨some "e", some "k"⟩ [] (serviceBytes [7])
       "/tmp/w1.wav" "i" "t" "robotic").trace = 1 ∧
     (gpt4ominitts ⟨some "e", some "k"⟩ [] (serviceBytes [7])
       "/tmp/w1.wav" "i" "t" "robotic").result ≠ SynthResult.clientConfigError) :=
  ⟨by decide,
   c1_unsupported_voice_sends_request "e" "k" [] (serviceBytes [7])
     "/tmp/w1.wav" "i" "t" "robotic" (by decide)⟩

/-- C9: gpt4ominitts performs no local validation of its text argument: for
every text, including the empty string, when endpoint and key are present and
the service responds with bytes, exactly one network request is issued and
the temp-file path is returned. -/
theorem c9_no_text_validation (ev kv : String) (fs : List (String × List Nat))
    (service : String → String → String → Option (List Nat))
    (tempName instructions text voice : String) (content : List Nat)
    (hsvc : service voice text instructions = some content) :
    networkCount (gpt4ominitts ⟨some ev, some kv⟩ fs service
      tempName instructions text voice).trace = 1 ∧
    (gpt4ominitts ⟨some ev, some kv⟩ fs service
      tempName instructions text voice).result = SynthResult.ok tempName := by
  rw [gpt4ominitts_eq_ok ev kv fs service tempName instructions text voice content hsvc]
  exact ⟨rfl, rfl⟩

/-- C9 witness: the theorem applied at the empty text. -/
theorem c9_no_text_validation_witness :
    networkCount (gpt4ominitts ⟨some "e", some "k"⟩ [] (serviceBytes [7])
      "/tmp/w9.wav" "i" "" "ash").trace = 1 ∧
    (gpt4ominitts ⟨some "e", some "k"⟩ [] (serviceBytes [7])
      "/tmp/w9.wav" "i" "" "ash").result = SynthResult.ok "/tmp/w9.wav" :=
  c9_no_text_validation "e" "k" [] (serviceBytes [7]) "/tmp/w9.wav" "i" "" "ash" [7] rfl

/-- C4: on a successful synthesis response over a fresh temp name, the bytes
are written exactly once, to a newly created file, the returned path names
that file, the file content equals the response bytes, the rest of the file
system is untouched, and the only event after the write is the sleep. -/
theorem c4_audio_written_once_intact (ev kv : String) (fs : List (String × List Nat))
    (service : String → String → String → Option (List Nat))
    (tempName instructions text voice : String) (content : List Nat)
    (hsvc : service voice text instructions = some content)
    (hfresh : fs.lookup tempName = none) :
    (gpt4ominitts ⟨some ev, some kv⟩ fs service
      tempName instructions text voice).result = SynthResult.ok tempName ∧
    (gpt4ominitts ⟨some ev, some kv⟩ fs service
      tempName instructions text voice).fs = (tempName, content) :: fs ∧
    (gpt4ominitts ⟨some ev, some kv⟩ fs service
      tempName instructions text voice).fs.lookup tempName = some content ∧
    writeCount (gpt4ominitts ⟨some ev, some kv⟩ fs service
      tempName instructions text voice).trace = 1 ∧
    (gpt4ominitts ⟨some ev, some kv⟩ fs service
      tempName instructions text voice).trace =
      [Event.getenv "endpoint", Event.getenv "key",
       Event.networkCall model_name voice text instructions "wav",
       Event.fileWrite tempName content, Event.sleepTenths 5] := by
  rw [gpt4ominitts_eq_ok ev kv fs service tempName instructions text voice content hsvc]
  refine ⟨rfl, rfl, ?_, rfl, rfl⟩
  simp [List.lookup]

/-- C4 witness: the theorem applied at concrete inputs. -/
theorem c4_audio_written_once_intact_witness :
    (gpt4ominitts ⟨some "e", some "k"⟩ [] (serviceBytes [82, 73, 70, 70])
      "/tmp/w4.wav" "i" "t" "ash").result = SynthResult.ok "/tmp/w4.wav" ∧
    (gpt4ominitts ⟨some "e", some "k"⟩ [] (serviceBytes [82, 73, 70, 70])
      "/tmp/w4.wav" "i" "t" "ash").fs = [("/tmp/w4.wav", [82, 73, 70, 70])] ∧
    (gpt4ominitts ⟨some "e", some "k"⟩ [] (serviceBytes [82, 73, 70, 70])
      "/tmp/w4.wav" "i" "t" "ash").fs.lookup "/tmp/w4.wav" = some [82, 73, 70, 70] ∧
    writeCount (gpt4ominitts ⟨some "e", some "k"⟩ [] (serviceBytes [82, 73, 70, 70])
      "/tmp/w4.wav" "i" "t" "ash").trace = 1 ∧
    (gpt4ominitts ⟨some "e", some "k"⟩ [] (serviceBytes [82, 73, 70, 70])
      "/tmp/w4.wav" "i" "t" "ash").trace =
      [Event.getenv "endpoint", Event.getenv "key",
       Event.networkCall model_name "ash" "t" "i" "wav",
       Event.fileWrite "/tmp/w4.wav" [82, 73, 70, 70], Event.sleepTenths 5] :=
  c4_audio_written_once_intact "e" "k" [] (serviceBytes [82, 73, 70, 70])
    "/tmp/w4.wav" "i" "t" "ash" [82, 73, 70, 70] rfl rfl

/-- C5 counterexample: an empty byte payload is returned as a success: the
call writes a zero-byte file and reports SynthResult.ok, not an error. -/
theorem c5_empty_payload_counterexample :
    (gpt4ominitts env0 [] (serviceBytes []) "/tmp/empty.wav" "i" "t" "ash").result =
      SynthResult.ok "/tmp/empty.wav" ∧
    (gpt4ominitts env0 [] (serviceBytes []) "/tmp/empty.wav" "i" "t" "ash").fs.lookup
      "/tmp/empty.wav" = some [] ∧
    (gpt4ominitts env0 [] (serviceBytes []) "/tmp/empty.wav" "i" "t" "ash").result ≠
      SynthResult.transportError := by
  exact ⟨rfl, rfl, by decide⟩

/-- C5 amended: the synthesis operation does not detect an empty payload: for
every call in which the service answers zero bytes, it writes a zero-byte
file and returns its path as a successful result. -/
theorem c5_empty_payload_is_success (ev kv : String) (fs : List (String × List Nat))
    (service : String → String → String → Option (List Nat))
    (tempName instructions text voice : String)
    (hsvc : service voice text instructions = some []) :
    (gpt4ominitts ⟨some ev, some kv⟩ fs service
      tempName instructions text voice).result = SynthResult.ok tempName ∧
    (gpt4ominitts ⟨some ev, some kv⟩ fs service
      tempName instructions text voice).fs.lookup tempName = some [] := by
  rw [gpt4ominitts_eq_ok ev kv fs service tempName instructions text voice [] hsvc]
  exact ⟨rfl, by simp [List.lookup]⟩

/-- C5 witness: the amended theorem applied at concrete inputs. -/
theorem c5_empty_payload_is_success_witness :
    (gpt4ominitts ⟨some "e", some "k"⟩ [] (serviceBytes []) "/tmp/w5.wav"
      "i" "t" "ash").result = SynthResult.ok "/tmp/w5.wav" ∧
    (gpt4ominitts ⟨some "e", some "k"⟩ [] (serviceBytes []) "/tmp/w5.wav"
      "i" "t" "ash").fs.lookup "/tmp/w5.wav" = some [] :=
  c5_empty_payload_is_success "e" "k" [] (serviceBytes []) "/tmp/w5.wav" "i" "t" "ash" rfl

/-- C6 counterexample: a synthesis call re-reads the configuration source:
its trace records two os.getenv reads, not zero. -/
theorem c6_config_reread_counterexample :
    getenvCount (gpt4ominitts env0 [] (serviceBytes [1]) "/tmp/c6.wav"
      "i" "t" "ash").trace = 2 ∧
    ¬ getenvCount (gpt4ominitts env0 [] (serviceBytes [1]) "/tmp/c6.wav"
      "i" "t" "ash").trace = 0 := by
  exact ⟨rfl, by decide⟩

/-- C6 amended: in the TTS flow the endpoint and key are read from the
environment on every synthesis call (two getenv reads per call, in every
branch), rather than once at process start; only api_version and model_name
are fixed at startup, whose trace holds no getenv read. -/
theorem c6_env_read_on_every_call (env : Env) (fs : List (String × List Nat))
    (service : String → String → String → Option (List Nat))
    (tempName instructions text voice : String) :
    getenvCount (gpt4ominitts env fs service tempName instructions text voice).trace = 2 ∧
    getenvCount (ttsStartup env).2 = 0 := by
  obtain ⟨ev, kv⟩ := env
  refine ⟨?_, rfl⟩
  cases ev <;> cases kv <;>
    cases hsvc : service voice text instructions <;>
      simp [gpt4ominitts, getenvCount, isGetenv, hsvc, List.filter]

/-- C7 counterexample: with endpoint and key both absent, startup succeeds
with no error, while the first synthesis request fails at client
construction, before any network call: the per-request operation is the
first point where the missing configuration is detected. -/
theorem c7_missing_config_counterexample :
    ttsStartup envMissing = (some (api_version, model_name), []) ∧
    (gpt4ominitts envMissing [] (serviceBytes [1]) "/tmp/c7.wav" "i" "t" "ash").result =
      SynthResult.clientConfigError ∧
    networkCount (gpt4ominitts envMissing [] (serviceBytes [1]) "/tmp/c7.wav"
      "i" "t" "ash").trace = 0 :=
  ⟨rfl, rfl, rfl⟩

/-- C7 amended: startup of the TTS notebook never fails, whatever the
environment; a missing endpoint or key is first detected when a synthesis
request constructs the client, which errors before any network call. -/
theorem c7_missing_config_detected_per_request (env : Env)
    (fs : List (String × List Nat))
    (service : String → String → String → Option (List Nat))
    (tempName instructions text voice : String)
    (hmiss : env.endpointVar = none ∨ env.keyVar = none) :
    ttsStartup env = (some (api_version, model_name), []) ∧
    (gpt4ominitts env fs service tempName instructions text voice).result =
      SynthResult.clientConfigError ∧
    networkCount (gpt4ominitts env fs service tempName instructions text voice).trace = 0 := by
  obtain ⟨ev, kv⟩ := env
  cases ev with
  | none => cases kv <;> exact ⟨rfl, rfl, rfl⟩
  | some e =>
    cases kv with
    | none => exact ⟨rfl, rfl, rfl⟩
    | some k =>
      exfalso
      rcases hmiss with h | h <;> simp only at h <;> exact Option.noConfusion h

/-- C7 witness: the amended theorem applied at the all-absent environment. -/
theorem c7_missing_config_detected_per_request_witness :
    ttsStartup envMissing = (some (api_version, model_name), []) ∧
    (gpt4ominitts envMissing [] (serviceBytes [1]) "/tmp/w7.wav" "i" "t" "ash").result =
      SynthResult.clientConfigError ∧
    networkCount (gpt4ominitts envMissing [] (serviceBytes [1]) "/tmp/w7.wav"
      "i" "t" "ash").trace = 0 :=
  c7_missing_config_detected_per_request envMissing [] (serviceBytes [1])
    "/tmp/w7.wav" "i" "t" "ash" (Or.inl rfl)

/-- C2 counterexample: on a response whose tool-call list is empty, the
extraction cell raises an uncaught IndexError; it does not produce a result
and no typed no-structured-result error exists in the flow. -/
theorem c2_empty_toolcalls_counterexample :
    extractResults freeTextResponse = Except.error PyError.indexError ∧
    ∀ kvs, ¬ extractResults freeTextResponse = Except.ok kvs := by
  refine ⟨rfl, ?_⟩
  intro kvs h
  rw [show extractResults freeTextResponse = Except.error PyError.indexError from rfl] at h
  exact Except.noConfusion h

/-- C2 amended: the extraction flow has no handling of the non-function
branch: an empty tool-call list makes it raise an uncaught IndexError, and an
absent (None) tool-call list an uncaught TypeError, for every response of
these shapes. -/
theorem c2_empty_toolcalls_raise (content : Option String) (cs : List Choice) :
    extractResults ⟨⟨⟨content, some []⟩⟩ :: cs⟩ = Except.error PyError.indexError ∧
    extractResults ⟨⟨⟨content, none⟩⟩ :: cs⟩ = Except.error PyError.typeError :=
  ⟨rfl, rfl⟩

/-- C8: the extraction flow depends only on the first tool call of the first
choice: its result on any response whose first choice carries tool calls
tc :: tcs equals its result on the single-choice, single-tool-call response
holding tc alone; additional choices and tool calls are ignored. -/
theorem c8_first_toolcall_only (content : Option String) (tc : ToolCall)
    (tcs : List ToolCall) (cs : List Choice) :
    extractResults ⟨⟨⟨content, some (tc :: tcs)⟩⟩ :: cs⟩ =
      extractResults ⟨[⟨⟨none, some [tc]⟩⟩]⟩ :=
  rfl

/-- C3: for every schema with at least one field and every non-empty
conversation, if the extraction call succeeds because the response carries a
tool call whose argument string is valid JSON conforming to the strict
schema, the flow returns that parsed mapping and its key set equals the
declared field names exactly. -/
theorem c3_extraction_keys_exact (service : ChatRequest → ChatCompletion)
    (conv : List ChatMessage) (s : SchemaDecl)
    (tc : ToolCall) (kvs : List (String × String))
    (hfield : 1 ≤ s.fields.length) (hconv : conv ≠ [])
    (htc : firstToolCall (service (mkChatRequest conv s)) = Except.ok tc)
    (hjson : jsonLoadsFlat tc.function.arguments = some kvs)
    (hconf : keysMatch s kvs) :
    runExtraction service conv s = Except.ok kvs ∧
    (kvs.map Prod.fst).toFinset = s.fields.toFinset := by
  constructor
  · simp [runExtraction, extractResults, htc, hjson]
  · ext k
    simp only [List.mem_toFinset]
    exact ⟨fun h => hconf.2 k h, fun h => hconf.1 k h⟩

/-- C3 witness: the theorem applied at the recorded Example 1 of the
structured-outputs notebook. -/
theorem c3_extraction_keys_exact_witness :
    (1 ≤ GetInformations.fields.length ∧ convA ≠ [] ∧
     firstToolCall (serviceA (mkChatRequest convA GetInformations)) =
       Except.ok toolCallA ∧
     jsonLoadsFlat toolCallA.function.arguments = some resultsA ∧
     keysMatch GetInformations resultsA) ∧
    runExtraction serviceA convA GetInformations = Except.ok resultsA ∧
    (resultsA.map Prod.fst).toFinset = GetInformations.fields.toFinset :=
  ⟨⟨by decide, by decide, rfl, by decide, by decide⟩,
   c3_extraction_keys_exact serviceA convA GetInformations toolCallA resultsA
     (by decide) (by decide) rfl (by decide) (by decide)⟩

/-- C10: the web form's voice input is the dropdown voice_picker, whose
option list is exactly VOICES, whose preset value "ash" lies in VOICES, and
which accepts no custom value: every voice the UI can submit to
gpt4ominitts is a member of VOICES. -/
theorem c10_ui_voice_in_set :
    voice_picker.choices = VOICES ∧
    voice_picker.value = "ash" ∧
    voice_picker.value ∈ VOICES ∧
    ∀ v, uiSelectable voice_picker v → v ∈ VOICES := by
  refine ⟨rfl, rfl, by decide, ?_⟩
  intro v hv
  rcases hv with h | h
  · exact h
  · exact absurd h (by decide)

/-- C10 witness: the theorem applied at the preset value "ash". -/
theorem c10_ui_voice_in_set_witness :
    uiSelectable voice_picker "ash" ∧ "ash" ∈ VOICES :=
  ⟨Or.inl (by decide), c10_ui_voice_in_set.2.2.2 "ash" (Or.inl (by decide))⟩

end AzureOpenAIDemos
